import Mathlib

/-!
Verification development for the `rag-engineering` repository.

The Python sources under `src/rag/` are shallowly embedded below:
pure functions become Lean functions on `List Char` / `String` / `Int`;
Python exceptions become an explicit `PyExc` error type threaded through
`Except`; external providers (embedder, vector store, LLM) become oracle
parameters; dynamically typed Python values become the `PyVal` / `Json`
inductives.  Each embedded definition cites the source file it translates.
-/

/-- Single-quote character as a string (ASCII 39), used when building the
exact Python message strings that contain quoted names. -/
def sQuote : String := (Char.ofNat 39).toString

/-- Python exception values relevant to this repository.  `valueError`,
`typeError` and `nameError` are Python builtins; the remaining kinds mirror
the hierarchy of `src/rag/models/exceptions.py`, where every domain error
subclasses `PipelineError`. -/
inductive PyExc where
  | valueError (msg : String)
  | typeError (msg : String)
  | nameError (msg : String)
  | pipelineError (msg : String)
  | searchError (msg : String)
  | generationError (msg : String)
  | ingestionError (msg : String)
  | safetyCheckError (msg : String)
  | planningError (msg : String)
  | agentExecutionError (msg : String)
deriving DecidableEq, Repr

/-- Message carried by a Python exception (what `str(e)` returns). -/
def PyExc.msg : PyExc → String
  | .valueError m | .typeError m | .nameError m | .pipelineError m
  | .searchError m | .generationError m | .ingestionError m
  | .safetyCheckError m | .planningError m | .agentExecutionError m => m

/-- Whether the exception is the `PlanningError` kind of
`src/rag/models/exceptions.py`. -/
def PyExc.isPlanningError : PyExc → Bool
  | .planningError _ => true
  | _ => false

/-- Whether the exception is a `ValueError` (Python builtin). -/
def PyExc.isValueError : PyExc → Bool
  | .valueError _ => true
  | _ => false

/-- Dynamically typed Python values as they occur in agent content maps and
per-document metadata: strings, string-keyed dicts, and an opaque tag for
any other runtime value (numbers, lists, objects), which the embedded code
only passes through unchanged. -/
inductive PyVal where
  | str (s : String)
  | dict (entries : List (String × PyVal))
  | other (tag : Nat)
deriving Repr

/-- Whether a `PyVal` is a dict (`isinstance(value, dict)` in Python). -/
def PyVal.isDict : PyVal → Bool
  | .dict _ => true
  | _ => false

/-- Python dict lookup `d[k]` / `d.get(k)` on an association list whose keys
are unique (first match wins, as in a Python dict). -/
def pyGet (d : List (String × PyVal)) (k : String) : Option PyVal :=
  (d.find? (fun kv => kv.1 = k)).map (fun kv => kv.2)

/-- Python `s.startswith(p)` on strings, rendered as a list-level prefix
test to keep kernel evaluation available. -/
def pyStartsWith (s p : String) : Bool :=
  List.isPrefixOf p.data s.data

/-- Python dict membership test `k in d`. -/
def pyHasKey (d : List (String × PyVal)) (k : String) : Bool :=
  d.any (fun kv => kv.1 = k)

/-- Python dict assignment `d[k] = v`: replaces the value at an existing key
in place, otherwise appends the new binding (insertion order preserved,
matching Python 3.7+ dict semantics). -/
def dictSet (d : List (String × PyVal)) (k : String) (v : PyVal) : List (String × PyVal) :=
  if pyHasKey d k then d.map (fun kv => if kv.1 = k then (k, v) else kv)
  else d ++ [(k, v)]

/-- Python `repr` of a list of strings, e.g. `['a', 'b']`, assuming the
strings themselves contain no quote or escape characters (true of all
`STEP_<n>_OUTPUT` keys and plan field names this is applied to). -/
def pyQuoteJoin : List String → String
  | [] => ""
  | [s] => sQuote ++ s ++ sQuote
  | s :: rest => sQuote ++ s ++ sQuote ++ ", " ++ pyQuoteJoin rest

/-- Python `repr` of a list of strings including the surrounding brackets. -/
def pyReprList (ss : List String) : String :=
  "[" ++ pyQuoteJoin ss ++ "]"

/-- Characters stripped by Python `str.strip()` (ASCII whitespace; the
sources only ever strip ASCII text). -/
def isPySpace (c : Char) : Bool :=
  c = ' ' || c = '\t' || c = '\n' || c = '\r' || c = Char.ofNat 11 || c = Char.ofNat 12

/-- Python `str.strip()` on a character list. -/
def pyStrip (s : List Char) : List Char :=
  ((s.dropWhile isPySpace).reverse.dropWhile isPySpace).reverse

/-- Python `str.strip()` on a `String`. -/
def pyStripS (s : String) : String :=
  ⟨pyStrip s.data⟩

/-- Python slice index resolution for `t[a:b]`: a negative index counts from
the end (clamped at 0), a positive index is clamped at the length. -/
def pyClampIdx (n : Nat) (i : Int) : Nat :=
  if i < 0 then (if (n : Int) + i < 0 then 0 else ((n : Int) + i).toNat)
  else min i.toNat n

/-- Python slice `t[a:b]` on a character list. -/
def pySlice (t : List Char) (a b : Int) : List Char :=
  let lo := pyClampIdx t.length a
  let hi := pyClampIdx t.length b
  (t.drop lo).take (hi - lo)

/-- Python `s[:k]` truncation on a `String` (used for `response[:500]`). -/
def pyTake (k : Nat) (s : String) : String :=
  ⟨s.data.take k⟩

/-- Loop of `chunk_text` from `src/rag/utils/chunking_utils.py` (lines 48-73),
collecting the stripped non-empty chunks exactly as the Python `while` loop
does.  Python `int` positions are modeled as `Int`; the loop may fail to
terminate when `overlap >= max_chars`, so it is driven by explicit fuel and
returns `none` exactly when the fuel runs out mid-loop (`chunk_text` below
supplies enough fuel for every terminating run of the Python loop). -/
def chunkLoop (t : List Char) (maxChars overlap : Int) :
    Nat → Int → List (List Char) → Option (List (List Char))
  | 0, _, _ => none
  | fuel + 1, start, acc =>
    if start < (t.length : Int) then
      let e := min (start + maxChars) (t.length : Int)
      let chunk := pyStrip (pySlice t start e)
      let acc' := if chunk.isEmpty then acc else acc ++ [chunk]
      if (t.length : Int) ≤ e then some acc'
      else chunkLoop t maxChars overlap fuel (e - overlap) acc'
    else some acc

/-- Same loop as `chunkLoop`, but collecting the raw (pre-`strip`) window
`text[start:end]` of every iteration.  Used to state the pre-trim overlap
and count properties of `chunk_text`. -/
def chunkLoopW (t : List Char) (maxChars overlap : Int) :
    Nat → Int → List (List Char) → Option (List (List Char))
  | 0, _, _ => none
  | fuel + 1, start, acc =>
    if start < (t.length : Int) then
      let e := min (start + maxChars) (t.length : Int)
      let acc' := acc ++ [pySlice t start e]
      if (t.length : Int) ≤ e then some acc'
      else chunkLoopW t maxChars overlap fuel (e - overlap) acc'
    else some acc

/-- Embedding of `chunk_text(text, max_chars, overlap)` from
`src/rag/utils/chunking_utils.py`: empty input returns `[]`, otherwise the
sliding-window loop runs from position 0.  The fuel `length + 1` suffices
for every terminating run of the Python loop (each iteration either ends
the loop or moves `start` by `max_chars - overlap`, and a non-positive move
never reaches the end), so `none` means the Python loop diverges. -/
def chunk_text (t : List Char) (maxChars overlap : Int) : Option (List (List Char)) :=
  if t.isEmpty then some [] else chunkLoop t maxChars overlap (t.length + 1) 0 []

/-- Raw pre-trim windows visited by `chunk_text` on the same input. -/
def chunkWindows (t : List Char) (maxChars overlap : Int) : Option (List (List Char)) :=
  if t.isEmpty then some [] else chunkLoopW t maxChars overlap (t.length + 1) 0 []

/-- Post-processing that turns the raw windows into the list `chunk_text`
returns: each window is stripped and empty results are dropped (the
`if chunk:` guard of the source loop). -/
def stripFilter (ws : List (List Char)) : List (List Char) :=
  (ws.map pyStrip).filter (fun c => !c.isEmpty)

/-- Normalized search hit, from `SearchResult` in `src/rag/models/types.py`.
Only the fields the embedded flows read are modeled; `score` (a float),
`metadata` and `created_at` are never inspected by the code under
verification and are omitted. The Python field `namespace` is a Lean
keyword, hence `namespace_`. -/
structure SearchResult where
  id : String := ""
  namespace_ : String := ""
  source_id : String := ""
  chunk : String := ""
  tags : Option String := none
  source_uri : Option String := none
deriving DecidableEq, Repr

/-- Result of one `answer_question` run: the returned string plus the list of
`(question, context, system_prompt)` calls made to the answer generator. -/
structure AnswerRun where
  result : String
  generatorCalls : List (String × String × Option String)
deriving DecidableEq, Repr

/-- Embedding of `RAGPipeline.answer_question` from
`src/rag/pipeline/rag_pipeline.py` (lines 124-148).  The searcher's outcome
is passed in as `results` (the method forwards `question`, `namespace` and
`top_k` to the searcher untouched, so only the returned hit list matters
here); the answer generator is the oracle `gen`. -/
def answer_question (gen : String → String → Option String → String)
    (results : List SearchResult) (question : String)
    (system_prompt : Option String) : AnswerRun :=
  if results.isEmpty then
    { result := "I couldn't find any relevant information to answer your question.",
      generatorCalls := [] }
  else
    let context := String.intercalate "\n\n"
      (results.map (fun r => "[Source: " ++ r.source_id ++ "]\n" ++ r.chunk))
    { result := gen question context system_prompt,
      generatorCalls := [(question, context, system_prompt)] }

/-- Result of one `SemanticSearcher.search` run: the outcome plus the number
of calls made to the embedding provider. -/
structure SearchRun where
  result : Except PyExc (List SearchResult)
  embedCalls : Nat
deriving Repr

/-- Embedding of `SemanticSearcher._build_filter` from
`src/rag/core/semantic_searcher.py`: combines an optional namespace filter
with an optional extra filter expression; Python truthiness makes the empty
string behave like `None`. -/
def build_filter (namespace_ extra_filter : Option String) : Option String :=
  let parts : List String :=
    (match namespace_ with
     | some ns => if ns = "" then [] else ["namespace eq " ++ sQuote ++ ns ++ sQuote]
     | none => []) ++
    (match extra_filter with
     | some e => if e = "" then [] else ["(" ++ e ++ ")"]
     | none => [])
  if parts.isEmpty then none else some (String.intercalate " and " parts)

/-- Embedding of `SemanticSearcher.search` from
`src/rag/core/semantic_searcher.py` (lines 86-153).  The index manager's
`index_exists()` answer and the embedding / vector-store providers are
oracle parameters; embedding vectors are opaque `List Int` values.  The
per-element `SearchResult.from_dict` normalization of raw service hits is
folded into the `vector_search` oracle's result type. -/
def semanticSearch (index_exists : Bool)
    (embed : List String → Except String (List (List Int)))
    (vector_search : List Int → Int → Option String → Except String (List SearchResult))
    (query : String) (namespace_ : Option String) (top_k : Int)
    (filter_expr : Option String) : SearchRun :=
  if !index_exists then
    { result := .error (.searchError "Search index does not exist. Returning empty results."),
      embedCalls := 0 }
  else
    match embed [query] with
    | .error e =>
      { result := .error (.searchError ("Query embedding failed: " ++ e)), embedCalls := 1 }
    | .ok [] => { result := .ok [], embedCalls := 1 }
    | .ok (qv :: _) =>
      match vector_search qv top_k (build_filter namespace_ filter_expr) with
      | .error e =>
        { result := .error (.searchError ("Vector search failed: " ++ e)), embedCalls := 1 }
      | .ok raw => { result := .ok raw, embedCalls := 1 }

/-- Well-known content keys tried, in priority order, when a resolved step
output is a dict (`ContextEngine._resolve_dependencies`). -/
def contentKeys : List String := ["output", "facts", "summary", "blueprint"]

/-- First value found under a well-known content key, in priority order. -/
def firstContentKey (entries : List (String × PyVal)) : Option PyVal :=
  contentKeys.findSome? (fun k => pyGet entries k)

/-- Keys of the execution state that look like step outputs
(`[k for k in state.keys() if k.startswith("STEP_")]`). -/
def stepKeys (state : List (String × PyVal)) : List String :=
  (state.map (fun kv => kv.1)).filter (fun k => pyStartsWith k "STEP_")

/-- Exact message of the `ValueError` raised by
`ContextEngine._resolve_dependencies` for an unresolved dependency. -/
def unresolvedMsg (value key : String) (available : List String) : String :=
  "Unresolved dependency: " ++ sQuote ++ value ++ sQuote ++ " in input parameter "
    ++ sQuote ++ key ++ sQuote ++ "\nAvailable outputs: " ++ pyReprList available

/-- Resolution of a single input-parameter entry by
`ContextEngine._resolve_dependencies` (`src/rag/engine/context_engine.py`
lines 64-96): a string value starting with `STEP_` is looked up in the
execution state (raising `ValueError` when absent), dict values are
unwrapped through the first present well-known content key, everything else
passes through unchanged. -/
def resolveEntry (state : List (String × PyVal)) (kv : String × PyVal) :
    Except PyExc (String × PyVal) :=
  match kv.2 with
  | .str s =>
    if pyStartsWith s "STEP_" then
      match pyGet state s with
      | none => .error (.valueError (unresolvedMsg s kv.1 (stepKeys state)))
      | some rv =>
        match rv with
        | .dict entries =>
          match firstContentKey entries with
          | some v => .ok (kv.1, v)
          | none => .ok (kv.1, .dict entries)
        | _ => .ok (kv.1, rv)
    else .ok kv
  | _ => .ok kv

/-- Embedding of `ContextEngine._resolve_dependencies`: the `for` loop over
the (deep-copied) input parameters, raising on the first unresolved
dependency and otherwise rebuilding the map in order. -/
def resolve_dependencies (input_params state : List (String × PyVal)) :
    Except PyExc (List (String × PyVal)) :=
  match input_params with
  | [] => .ok []
  | kv :: rest =>
    match resolveEntry state kv with
    | .error e => .error e
    | .ok kv' =>
      match resolve_dependencies rest state with
      | .error e => .error e
      | .ok rest' => .ok (kv' :: rest')

/-- Lower-cased character data of a string, modeling the effect of
`re.IGNORECASE` on the ASCII-only injection patterns of
`sanitize_input` (`src/rag/utils/text_utils.py`). -/
def lowerData (s : String) : List Char := s.data.map Char.toLower

/-- Boolean infix (substring) test on character lists. -/
def listContains (needle hay : List Char) : Bool := decide (needle <:+: hay)

/-- Matcher for the tail `.*mode` of the pattern `you are now in.*mode`:
looks for `mode` reachable without crossing a newline (an undotted `.` in
Python `re` does not match newlines). -/
def modeAfter : List Char → Bool
  | [] => false
  | c :: rest =>
    if List.isPrefixOf "mode".data (c :: rest) then true
    else if c = '\n' then false
    else modeAfter rest

/-- Matcher for the regex `you are now in.*mode` under `re.search`: some
position starts with the literal prefix and reaches `mode` on the same
line. -/
def youAreNowInMode : List Char → Bool
  | [] => false
  | c :: rest =>
    if List.isPrefixOf "you are now in".data (c :: rest)
        && modeAfter ((c :: rest).drop "you are now in".data.length) then true
    else youAreNowInMode rest

/-- Whether any of the injection patterns of `sanitize_input`
(`src/rag/utils/text_utils.py`) matches the text, case-insensitively.  All
patterns except `you are now in.*mode` are literal substrings; the last
source pattern `sudo|apt-get|yum|pip install` is an alternation of four
literals. -/
def sanitizePatternMatch (text : String) : Bool :=
  let low := lowerData text
  listContains "ignore previous instructions".data low
  || listContains "ignore all prior commands".data low
  || youAreNowInMode low
  || listContains "act as".data low
  || listContains "print your instructions".data low
  || listContains "sudo".data low
  || listContains "apt-get".data low
  || listContains "yum".data low
  || listContains "pip install".data low

/-- Embedding of `sanitize_input` from `src/rag/utils/text_utils.py`:
returns the text unchanged, or raises `ValueError` when an injection
pattern is detected. -/
def sanitize_input (text : String) : Except PyExc String :=
  if sanitizePatternMatch text then
    .error (.valueError "Input sanitization failed. Potential threat detected.")
  else .ok text

/-- Status literals of `AgentResponse` (`src/rag/models/agent_response.py`). -/
inductive AgentStatus where
  | success
  | error
  | blocked
deriving DecidableEq, Repr

/-- The `AgentResponse` dataclass of `src/rag/models/agent_response.py`. -/
structure AgentResponse where
  sender : String
  content : PyVal
  status : AgentStatus := .success
  error_message : Option String := none
  metadata : Option PyVal := none
deriving Repr

/-- Value returned by an agent's `execute`: either a plain Python dict or a
structured `AgentResponse` (the source mixes both shapes across agents). -/
inductive ExecOut where
  | dict (entries : List (String × PyVal))
  | resp (r : AgentResponse)
deriving Repr

/-- Whether an `execute` outcome is an error-status `AgentResponse` carrying
the given error message. -/
def ExecOut.isErrorRespWithMsg (o : ExecOut) (m : String) : Bool :=
  match o with
  | .resp r => r.status = AgentStatus.error && r.error_message = some m
  | .dict _ => false

mutual

/-- Python `str()` of a `PyVal` (used for the f-string `f"Topic: {topic}"`
in the Researcher agent): a string formats as itself, a dict as its `repr`;
the opaque-object case carries no printable content in the model. -/
def pyValStr : PyVal → String
  | .str s => s
  | .dict es => "\x7b" ++ pyValDictBody es ++ "\x7d"
  | .other t => "<object " ++ toString t ++ ">"

/-- Python `repr()` of a `PyVal` (strings gain quotes). -/
def pyValRepr : PyVal → String
  | .str s => sQuote ++ s ++ sQuote
  | .dict es => "\x7b" ++ pyValDictBody es ++ "\x7d"
  | .other t => "<object " ++ toString t ++ ">"

/-- Body of a Python dict `repr`, comma-joined `'key': repr(value)` pairs. -/
def pyValDictBody : List (String × PyVal) → String
  | [] => ""
  | [kv] => sQuote ++ kv.1 ++ sQuote ++ ": " ++ pyValRepr kv.2
  | kv :: rest => sQuote ++ kv.1 ++ sQuote ++ ": " ++ pyValRepr kv.2 ++ ", " ++ pyValDictBody rest

end

/-- Result of one `ResearcherAgent.execute` run: the returned value plus the
number of calls made to the answer generator. -/
structure ResearcherRun where
  out : ExecOut
  generatorCalls : Nat
deriving Repr

/-- Embedding of `ResearcherAgent.execute` from `src/rag/agents/researcher.py`
(lines 21-66, the active `execute` method).  The semantic search over the
`KnowledgeStore` namespace is passed in as `results`; the generator is the
oracle `gen`.  `validate_input` raises `ValueError` when the content map
lacks the `topic` key; each hit's chunk is passed through `sanitize_input`,
failures being skipped; with no surviving chunk a plain message dict is
returned without calling the generator. -/
def researcher_execute (gen : String → String → Option String → String)
    (results : List SearchResult) (content : List (String × PyVal)) :
    Except PyExc ResearcherRun :=
  match pyGet content "topic" with
  | none => .error (.valueError "Missing required field: topic")
  | some topicVal =>
    let sanitized := results.filterMap (fun r =>
      match sanitize_input r.chunk with
      | .ok s => some s
      | .error _ => none)
    if sanitized.isEmpty then
      .ok { out := .dict [("sender", .str "Researcher"),
              ("content",
                .str "Could not generate a reliable answer as retrieved data was suspect.")],
            generatorCalls := 0 }
    else
      let sources_text := String.intercalate "\n\n---\n\n" sanitized
      let sysPrompt :=
        "You are an expert research synthesis AI.\n"
        ++ "Synthesize the provided source texts into a concise, bullet-pointed summary "
        ++ "relevant to the user" ++ sQuote
        ++ "s topic. Focus strictly on the facts provided in the sources. "
        ++ "Do not add outside information."
      let answer := gen ("Topic: " ++ pyValStr topicVal) sources_text (some sysPrompt)
      .ok { out := .dict [("sender", .str "Researcher"),
              ("content", .dict [("facts", .str answer)])],
            generatorCalls := 1 }

/-- JSON values as produced by `json.loads` on a model response
(`PlannerAgent.create_plan`, `src/rag/agents/planner.py`). -/
inductive Json where
  | null
  | bool (b : Bool)
  | num (n : Int)
  | str (s : String)
  | arr (xs : List Json)
  | obj (fields : List (String × Json))
deriving Repr

/-- Lookup in a parsed JSON object (Python dict access by key). -/
def jGet (fs : List (String × Json)) (k : String) : Option Json :=
  (fs.find? (fun kv => kv.1 = k)).map (fun kv => kv.2)

/-- Python `type(v)` rendering of a parsed JSON value, as interpolated into
the planner's error messages. -/
def jsonTypeName : Json → String
  | .null => "<class " ++ sQuote ++ "NoneType" ++ sQuote ++ ">"
  | .bool _ => "<class " ++ sQuote ++ "bool" ++ sQuote ++ ">"
  | .num _ => "<class " ++ sQuote ++ "int" ++ sQuote ++ ">"
  | .str _ => "<class " ++ sQuote ++ "str" ++ sQuote ++ ">"
  | .arr _ => "<class " ++ sQuote ++ "list" ++ sQuote ++ ">"
  | .obj _ => "<class " ++ sQuote ++ "dict" ++ sQuote ++ ">"

mutual

/-- Python `repr`/f-string rendering of a parsed JSON value (str keys and
values assumed quote- and escape-free, true of every concrete input used
below). -/
def pyReprJson : Json → String
  | .null => "None"
  | .bool b => if b then "True" else "False"
  | .num n => toString n
  | .str s => sQuote ++ s ++ sQuote
  | .arr xs => "[" ++ pyReprJsonItems xs ++ "]"
  | .obj fs => "\x7b" ++ pyReprJsonFields fs ++ "\x7d"

/-- Comma-joined `repr` renderings of list items. -/
def pyReprJsonItems : List Json → String
  | [] => ""
  | [x] => pyReprJson x
  | x :: rest => pyReprJson x ++ ", " ++ pyReprJsonItems rest

/-- Comma-joined `'key': repr(value)` renderings of object fields. -/
def pyReprJsonFields : List (String × Json) → String
  | [] => ""
  | [kv] => sQuote ++ kv.1 ++ sQuote ++ ": " ++ pyReprJson kv.2
  | kv :: rest => sQuote ++ kv.1 ++ sQuote ++ ": " ++ pyReprJson kv.2 ++ ", " ++ pyReprJsonFields rest

end

/-- Python membership test `field in v` on a parsed JSON value: key lookup
for dicts, substring for strings, element equality for lists, and a
`TypeError` for non-container values (as `'step' in 3` raises). -/
def pyContains (field : String) (v : Json) : Except PyExc Bool :=
  match v with
  | .obj fs => .ok (fs.any (fun kv => kv.1 = field))
  | .str s => .ok (listContains field.data s.data)
  | .arr xs => .ok (xs.any (fun x => match x with | .str s => s = field | _ => false))
  | _ => .error (.typeError ("argument of type " ++ jsonTypeName v ++ " is not iterable"))

/-- The list comprehension `[f for f in required if f not in step]` of
`PlannerAgent._validate_plan_schema`, propagating a `TypeError` from the
membership test on a non-container step. -/
def missingFields (required : List String) (step : Json) : Except PyExc (List String) :=
  match required with
  | [] => .ok []
  | f :: rest =>
    match pyContains f step with
    | .error e => .error e
    | .ok b =>
      match missingFields rest step with
      | .error e => .error e
      | .ok ms => .ok (if b then ms else f :: ms)

/-- Per-step loop of `PlannerAgent._validate_plan_schema`: each step must
contain the fields `step`, `agent` and `input`, else a `ValueError` naming
the missing fields is raised. -/
def validateSteps (i : Nat) (steps : List Json) : Except PyExc Unit :=
  match steps with
  | [] => .ok ()
  | step :: rest =>
    match missingFields ["step", "agent", "input"] step with
    | .error e => .error e
    | .ok [] => validateSteps (i + 1) rest
    | .ok ms =>
      .error (.valueError ("Step " ++ toString i ++ " missing fields: " ++ pyReprList ms
        ++ ". Step: " ++ pyReprJson step))

/-- Shape check of `PlannerAgent._validate_plan_schema`: the plan must be a
list, then every step is validated. -/
def checkPlanList (plan : Json) : Except PyExc (List Json) :=
  match plan with
  | .arr steps =>
    match validateSteps 0 steps with
    | .error e => .error e
    | .ok _ => .ok steps
  | _ => .error (.valueError ("Plan must be a list, got " ++ jsonTypeName plan))

/-- Wrapped-dict handling of `PlannerAgent.create_plan`: a top-level dict
must expose the plan under `plan` or `steps`, else a `ValueError` listing
its keys is raised; any other top-level value is taken as the plan itself. -/
def planFromData (plan_data : Json) : Except PyExc (List Json) :=
  match plan_data with
  | .obj fs =>
    match jGet fs "plan" with
    | some p => checkPlanList p
    | none =>
      match jGet fs "steps" with
      | some p => checkPlanList p
      | none =>
        .error (.valueError ("Expected " ++ sQuote ++ "plan" ++ sQuote ++ " or "
          ++ sQuote ++ "steps" ++ sQuote ++ " key, got: "
          ++ pyReprList (fs.map (fun kv => kv.1))))
  | _ => checkPlanList plan_data

/-- Embedding of `PlannerAgent.create_plan` from `src/rag/agents/planner.py`
(lines 94-120).  The generator's raw model output is `response`; the
markdown-fence extraction plus `json.loads` of
`_extract_json_from_response` is modeled by the `parsed` argument (its
`.error` case is the `json.JSONDecodeError` message).  A parse failure is
re-raised as `ValueError` carrying the first 500 characters of the raw
response; every other failure inside the `try` block is caught by
`except Exception` and re-raised as
`ValueError("Planner failed to generate a valid plan: ...")`. -/
def create_plan (response : String) (parsed : Except String Json) :
    Except PyExc (List Json) :=
  match parsed with
  | .error e =>
    .error (.valueError ("Failed to parse plan as JSON: " ++ e
      ++ "\n\nRaw response:\n" ++ pyTake 500 response))
  | .ok plan_data =>
    match planFromData plan_data with
    | .ok steps => .ok steps
    | .error e =>
      .error (.valueError ("Planner failed to generate a valid plan: " ++ e.msg))

/-- Embedding of `ensure_namespace` from `src/rag/utils/metadata_utils.py`
at a string argument (the `None` case of the Python signature never occurs
at the embedded call sites): trims whitespace and falls back to the default
when the result is empty. -/
def ensure_namespace (ns : String) (default_ns : String := "KnowledgeStore") : String :=
  let t := pyStripS ns
  if t = "" then default_ns else t

/-- Normalized ingestion item, the dict produced by `normalize_single_item`
(`src/rag/utils/normalize_utils.py`): a `name`, a `mime_type` and a
`source` record with `type` and `value`; the optional loaded `content` is
not read by the metadata-enrichment step modeled below. -/
structure NormItem where
  name : String
  mime_type : String
  source_type : String
  source_value : String
deriving DecidableEq, Repr

/-- Embedding of the per-document metadata enrichment block of
`DocumentIngester.ingest_documents` (`src/rag/core/document_ingester.py`
lines 247-266).  For an item whose source type is `path` the source
executes `p = Path(path_str)` — but `document_ingester.py` never imports
`pathlib.Path`, so this raises `NameError`, which the surrounding
`except Exception: pass` swallows; the filename/filepath/fileext updates,
and the `mime_type`/`item_name` updates further down the same `try` block,
are therefore all skipped and the metadata stays exactly `extra_meta`.
For a non-path item no name lookup fails and the truthy `mime_type` and
`name` values are recorded. -/
def enrichPerDocMeta (extra_meta : List (String × PyVal)) (item : NormItem) :
    List (String × PyVal) :=
  if item.source_type = "path" then
    extra_meta
  else
    let m1 := if item.mime_type ≠ "" then dictSet extra_meta "mime_type" (.str item.mime_type)
      else extra_meta
    if item.name ≠ "" then dictSet m1 "item_name" (.str item.name) else m1

/-- Search document shaped by `make_search_documents`
(`src/rag/utils/document_utils.py`).  `metadata_json` holds the metadata
dict itself (the source stores `json.dumps` of it, or `None` when the dict
is empty; the serialization is a stdlib call that preserves exactly the
dict's keys).  The Python field `namespace` is a Lean keyword, hence
`namespace_`. -/
structure SearchDocument where
  id : String
  namespace_ : String
  source_id : String
  chunk_id : Nat
  chunk : String
  chunk_vector : List Int
  tags : Option PyVal
  created_at : String
  source_uri : Option PyVal
  metadata_json : Option (List (String × PyVal))
deriving Repr

/-- Embedding of `make_search_documents` from
`src/rag/utils/document_utils.py` (lines 21-124): one document per
chunk/embedding pair, id `"{source_id}-{idx}"`, namespace normalized via
`ensure_namespace`, `tags`/`source_uri` extracted from the metadata, and
the serialized metadata attached when non-empty.  The wall-clock
`now_iso()` timestamp is the `timestamp` parameter. -/
def make_search_documents (namespace_ source_id : String)
    (content_chunks : List String) (embeddings : List (List Int))
    (extra_meta : List (String × PyVal)) (timestamp : String) : List SearchDocument :=
  let safe_namespace := ensure_namespace namespace_
  let meta := extra_meta
  let metadata_json := if meta.isEmpty then none else some meta
  (List.zip content_chunks embeddings).enum.map (fun iv =>
    { id := source_id ++ "-" ++ toString iv.1,
      namespace_ := safe_namespace,
      source_id := source_id,
      chunk_id := iv.1,
      chunk := iv.2.1,
      chunk_vector := iv.2.2,
      tags := pyGet meta "tags",
      created_at := timestamp,
      source_uri := pyGet meta "source_uri",
      metadata_json := metadata_json })

/-- The `IngestionResult` dataclass of `src/rag/models/types.py` (the float
`duration_seconds` is modeled as an integer number of time units; it is
never computed with, only stored). -/
structure IngestionResult where
  success : Bool
  documents_processed : Nat
  chunks_created : Nat
  documents_uploaded : Nat
  errors : List String := []
  duration_seconds : Int := 0
deriving DecidableEq, Repr

/-- Embedding of the upload step and result construction at the end of
`DocumentIngester.ingest_documents` (`src/rag/core/document_ingester.py`
lines 284-319), parameterized by the already-built documents, the upstream
counts, and the outcome of `store.upsert_documents(docs)`.  On success the
store-confirmed count (`uploaded_count` in the source) is bound but never
used: the result reports `len(docs)`. -/
def ingestUploadPhase (docs : List SearchDocument) (items_len chunks_len : Nat)
    (upsert_outcome : Except String Nat) (duration : Int) : IngestionResult :=
  match upsert_outcome with
  | .error e =>
    { success := false,
      documents_processed := items_len,
      chunks_created := chunks_len,
      documents_uploaded := 0,
      errors := ["Vector store upload failed: " ++ e],
      duration_seconds := duration }
  | .ok _uploaded_count =>
    { success := true,
      documents_processed := items_len,
      chunks_created := chunks_len,
      documents_uploaded := docs.length,
      errors := [],
      duration_seconds := duration }

/-- The `ChunkingConfig` dataclass of `src/rag/models/types.py`. -/
structure ChunkingConfig where
  use_token_chunking : Bool := false
  chunk_size : Int := 4000
  overlap : Int := 200
deriving DecidableEq, Repr

/-- The `RAGConfig` dataclass of `src/rag/models/config.py` (the float
`llm_timeout` is modeled as an integer number of seconds; it is stored and
forwarded, never computed with). -/
structure RAGConfig where
  azure_openai_endpoint : String
  azure_openai_api_key : String
  azure_search_endpoint : String
  azure_search_api_key : String
  index_name : String
  azure_openai_api_version : String := "2024-02-15-preview"
  embedding_deployment : String := "text-embedding-ada-002"
  model_deployment : String := "gpt-5-nano"
  vector_dimensions : Int := 1536
  llm_timeout : Int := 60
  llm_retries : Int := 3
  default_namespace : String := "KnowledgeStore"
  batch_size : Int := 16
  chunking : ChunkingConfig := {}
deriving DecidableEq, Repr

/-- Constructor state of `AzureOpenAIEmbedder`
(`src/rag/implementations/azure_openai_embedder.py`): the configuration it
is wired with (the underlying HTTP client is external). -/
structure AzureOpenAIEmbedder where
  endpoint : String
  api_key : String
  api_version : String
  deployment_name : String
deriving DecidableEq, Repr

/-- Constructor state of `AzureSearchStore`
(`src/rag/implementations/azure_search_store.py`). -/
structure AzureSearchStore where
  endpoint : String
  api_key : String
  index_name : String
deriving DecidableEq, Repr

/-- Constructor state of `AzureOpenAILLM`
(`src/rag/implementations/azure_openai_llm.py`). -/
structure AzureOpenAILLM where
  endpoint : String
  api_key : String
  api_version : String
  deployment_name : String
  timeout : Int
  retries : Int
deriving DecidableEq, Repr

/-- Constructor state of `IndexManager` (`src/rag/core/index_manager.py`). -/
structure IndexManager where
  endpoint : String
  api_key : String
  index_name : String
  vector_dimensions : Int
deriving DecidableEq, Repr

/-- Constructor state of `DocumentIngester` (`src/rag/core/document_ingester.py`). -/
structure DocumentIngester where
  embedder : AzureOpenAIEmbedder
  store : AzureSearchStore
  index_manager : IndexManager
  batch_size : Int
deriving DecidableEq, Repr

/-- Constructor state of `SemanticSearcher` (`src/rag/core/semantic_searcher.py`). -/
structure SemanticSearcher where
  embedder : AzureOpenAIEmbedder
  store : AzureSearchStore
  index_manager : IndexManager
deriving DecidableEq, Repr

/-- Constructor state of `AnswerGenerator` (`src/rag/core/answer_generator.py`). -/
structure AnswerGenerator where
  llm : AzureOpenAILLM
deriving DecidableEq, Repr

/-- Opaque Python object references used as constructor arguments when
modeling Python call binding (`pipelineSelf` is the `self` that
`RAGPipeline.__init__` passes to `ContextEngine`). -/
inductive PyObj where
  | pipelineSelf
  | objRef (tag : Nat)
deriving DecidableEq, Repr

/-- The `AgentRegistry` of `src/rag/agents/registry.py` as constructed by
`ContextEngine.__init__`: it holds the dependency bag
(searcher, generator, optional content-safety provider) from which the
four agents (librarian, researcher, writer, summarizer) are built. -/
structure AgentRegistry where
  searcher : PyObj
  generator : PyObj
  content_safety : Option PyObj
deriving DecidableEq, Repr

/-- The `PlannerAgent` of `src/rag/agents/planner.py` as constructed by
`ContextEngine.__init__`: it holds the generator. -/
structure PlannerAgent where
  generator : PyObj
deriving DecidableEq, Repr

/-- The `ContextEngine` of `src/rag/engine/context_engine.py`: its `__init__`
builds one `AgentRegistry` from (searcher, generator, content_safety) and
one `PlannerAgent` from the generator. -/
structure ContextEngine where
  registry : AgentRegistry
  planner : PlannerAgent
deriving DecidableEq, Repr

/-- Python call binding for `ContextEngine(searcher, generator,
content_safety=None)` (`src/rag/engine/context_engine.py` lines 18-27)
given a list of positional arguments: `searcher` and `generator` are
required, so a call with fewer than two positional arguments raises
`TypeError` before the constructor body runs; otherwise the body wires the
registry and the planner from the bound arguments. -/
def contextEngineCall (pos_args : List PyObj) : Except PyExc ContextEngine :=
  match pos_args with
  | [] =>
    .error (.typeError ("ContextEngine.__init__() missing 2 required positional arguments: "
      ++ sQuote ++ "searcher" ++ sQuote ++ " and " ++ sQuote ++ "generator" ++ sQuote))
  | [_s] =>
    .error (.typeError ("ContextEngine.__init__() missing 1 required positional argument: "
      ++ sQuote ++ "generator" ++ sQuote))
  | [s, g] =>
    .ok { registry := { searcher := s, generator := g, content_safety := none },
          planner := { generator := g } }
  | [s, g, c] =>
    .ok { registry := { searcher := s, generator := g, content_safety := some c },
          planner := { generator := g } }
  | _ =>
    .error (.typeError "ContextEngine.__init__() takes from 3 to 4 positional arguments but more were given")

/-- Fully constructed `RAGPipeline` (`src/rag/pipeline/rag_pipeline.py`). -/
structure RAGPipeline where
  config : RAGConfig
  embedder : AzureOpenAIEmbedder
  store : AzureSearchStore
  llm : AzureOpenAILLM
  index_manager : IndexManager
  ingester : DocumentIngester
  searcher : SemanticSearcher
  generator : AnswerGenerator
  context_engine : ContextEngine
deriving DecidableEq, Repr

/-- Embedding of `RAGPipeline.__init__` from
`src/rag/pipeline/rag_pipeline.py` (lines 33-78): providers and core
modules are built from the configuration in source order, then line 78
executes `self.context_engine = ContextEngine(self)` — a call with the
single positional argument `self`, modeled by `contextEngineCall
[PyObj.pipelineSelf]`. -/
def ragPipelineInit (config : RAGConfig) : Except PyExc RAGPipeline :=
  let embedder : AzureOpenAIEmbedder :=
    { endpoint := config.azure_openai_endpoint,
      api_key := config.azure_openai_api_key,
      api_version := config.azure_openai_api_version,
      deployment_name := config.embedding_deployment }
  let store : AzureSearchStore :=
    { endpoint := config.azure_search_endpoint,
      api_key := config.azure_search_api_key,
      index_name := config.index_name }
  let llm : AzureOpenAILLM :=
    { endpoint := config.azure_openai_endpoint,
      api_key := config.azure_openai_api_key,
      api_version := config.azure_openai_api_version,
      deployment_name := config.model_deployment,
      timeout := config.llm_timeout,
      retries := config.llm_retries }
  let index_manager : IndexManager :=
    { endpoint := config.azure_search_endpoint,
      api_key := config.azure_search_api_key,
      index_name := config.index_name,
      vector_dimensions := config.vector_dimensions }
  let ingester : DocumentIngester :=
    { embedder := embedder, store := store, index_manager := index_manager,
      batch_size := config.batch_size }
  let searcher : SemanticSearcher :=
    { embedder := embedder, store := store, index_manager := index_manager }
  let generator : AnswerGenerator := { llm := llm }
  match contextEngineCall [PyObj.pipelineSelf] with
  | .error e => .error e
  | .ok engine =>
    .ok { config := config, embedder := embedder, store := store, llm := llm,
          index_manager := index_manager, ingester := ingester, searcher := searcher,
          generator := generator, context_engine := engine }

/-- Unfolding equation for one iteration of the raw-window loop. -/
theorem chunkLoopW_succ (t : List Char) (mc ov : Int) (fuel : Nat) (start : Int)
    (acc : List (List Char)) :
    chunkLoopW t mc ov (fuel + 1) start acc =
      if start < (t.length : Int) then
        let e := min (start + mc) (t.length : Int)
        let acc' := acc ++ [pySlice t start e]
        if (t.length : Int) ≤ e then some acc'
        else chunkLoopW t mc ov fuel (e - ov) acc'
      else some acc := rfl

/-- Unfolding equation for one iteration of the stripped-chunk loop. -/
theorem chunkLoop_succ (t : List Char) (mc ov : Int) (fuel : Nat) (start : Int)
    (acc : List (List Char)) :
    chunkLoop t mc ov (fuel + 1) start acc =
      if start < (t.length : Int) then
        let e := min (start + mc) (t.length : Int)
        let chunk := pyStrip (pySlice t start e)
        let acc' := if chunk.isEmpty then acc else acc ++ [chunk]
        if (t.length : Int) ≤ e then some acc'
        else chunkLoop t mc ov fuel (e - ov) acc'
      else some acc := rfl

/-- The accumulator of the raw-window loop is a pure prefix of the result. -/
theorem chunkLoopW_acc (t : List Char) (mc ov : Int) :
    ∀ (fuel : Nat) (start : Int) (acc : List (List Char)),
      chunkLoopW t mc ov fuel start acc
        = (chunkLoopW t mc ov fuel start []).map (fun ws => acc ++ ws) := by
  intro fuel
  induction fuel with
  | zero => intro start acc; simp [chunkLoopW]
  | succ f ih =>
    intro start acc
    by_cases h1 : start < (t.length : Int)
    · by_cases h2 : (t.length : Int) ≤ min (start + mc) (t.length : Int)
      · simp [chunkLoopW, h1, h2]
      · simp only [chunkLoopW, h1, if_true, h2, if_false]
        rw [ih _ (acc ++ [pySlice t start (min (start + mc) (t.length : Int))]),
          ih _ ([] ++ [pySlice t start (min (start + mc) (t.length : Int))])]
        cases chunkLoopW t mc ov f (min (start + mc) (t.length : Int) - ov) [] with
        | none => simp
        | some ws => simp
    · simp [chunkLoopW, h1]

/-- The accumulator of the stripped-chunk loop is a pure prefix of the result. -/
theorem chunkLoop_acc (t : List Char) (mc ov : Int) :
    ∀ (fuel : Nat) (start : Int) (acc : List (List Char)),
      chunkLoop t mc ov fuel start acc
        = (chunkLoop t mc ov fuel start []).map (fun ws => acc ++ ws) := by
  intro fuel
  induction fuel with
  | zero => intro start acc; simp [chunkLoop]
  | succ f ih =>
    intro start acc
    by_cases h1 : start < (t.length : Int)
    · by_cases h2 : (t.length : Int) ≤ min (start + mc) (t.length : Int)
      · by_cases h3 : (pyStrip (pySlice t start (min (start + mc) (t.length : Int)))).isEmpty
        · simp [chunkLoop, h1, h2, h3]
        · simp [chunkLoop, h1, h2, h3]
      · by_cases h3 : (pyStrip (pySlice t start (min (start + mc) (t.length : Int)))).isEmpty
        · simp only [chunkLoop, h1, if_true, h2, if_false, List.nil_append]
          rw [if_pos h3, if_pos h3]
          rw [ih _ acc, ih _ ([] : List (List Char))]
        · simp only [chunkLoop, h1, if_true, h2, if_false, List.nil_append]
          rw [if_neg h3, if_neg h3]
          rw [ih _ (acc ++ [pyStrip (pySlice t start (min (start + mc) (t.length : Int)))]),
            ih _ ([pyStrip (pySlice t start (min (start + mc) (t.length : Int)))])]
          cases chunkLoop t mc ov f (min (start + mc) (t.length : Int) - ov) [] with
          | none => simp
          | some ws => simp
    · simp [chunkLoop, h1]

/-- The stripped-chunk loop computes exactly the strip-and-filter image of
the raw-window loop. -/
theorem chunkLoop_eq_windows (t : List Char) (mc ov : Int) :
    ∀ (fuel : Nat) (start : Int),
      chunkLoop t mc ov fuel start []
        = (chunkLoopW t mc ov fuel start []).map stripFilter := by
  intro fuel
  induction fuel with
  | zero => intro start; simp [chunkLoop, chunkLoopW]
  | succ f ih =>
    intro start
    by_cases h1 : start < (t.length : Int)
    · by_cases h2 : (t.length : Int) ≤ min (start + mc) (t.length : Int)
      · by_cases h3 : (pyStrip (pySlice t start (min (start + mc) (t.length : Int)))).isEmpty
        · simp [chunkLoop, chunkLoopW, h1, h2, if_pos h3, stripFilter, List.filter,
            List.isEmpty_iff.mp h3]
        · have h3' : (pyStrip (pySlice t start (min (start + mc) (t.length : Int)))).isEmpty = false := by
            cases hb : (pyStrip (pySlice t start (min (start + mc) (t.length : Int)))).isEmpty
            · rfl
            · exact absurd hb h3
          simp [chunkLoop, chunkLoopW, h1, h2, if_neg h3, stripFilter, List.filter, h3',
            List.isEmpty_eq_false.mp h3']
      · have key : ∀ ws, stripFilter (pySlice t start (min (start + mc) (t.length : Int)) :: ws)
            = (if (pyStrip (pySlice t start (min (start + mc) (t.length : Int)))).isEmpty
                then [] else [pyStrip (pySlice t start (min (start + mc) (t.length : Int)))])
              ++ stripFilter ws := by
          intro ws
          by_cases h3 : (pyStrip (pySlice t start (min (start + mc) (t.length : Int)))).isEmpty
          · simp [stripFilter, List.filter, h3]
          · simp [stripFilter, List.filter, h3]
        simp only [chunkLoop, chunkLoopW, h1, if_true, h2, if_false, List.nil_append]
        rw [chunkLoop_acc, chunkLoopW_acc, ih]
        cases chunkLoopW t mc ov f (min (start + mc) (t.length : Int) - ov) [] with
        | none => simp
        | some ws => simp [key ws]
    · simp [chunkLoop, chunkLoopW, h1, stripFilter]

/-- Fuel bound for the raw-window loop: with forward progress
(`overlap < max_chars`) the loop finishes before `length - start` more
iterations. -/
theorem chunkLoopW_isSome (t : List Char) (mc ov : Int) (hov : 0 ≤ ov) (hlt : ov < mc) :
    ∀ (fuel : Nat) (start : Int) (acc : List (List Char)),
      0 ≤ start → start ≤ (t.length : Int) → (t.length : Int) - start < (fuel : Int) →
      (chunkLoopW t mc ov fuel start acc).isSome := by
  intro fuel
  induction fuel with
  | zero => intro start acc h0 h1 h2; simp only [Nat.cast_zero] at h2; omega
  | succ f ih =>
    intro start acc h0 h1 h2
    by_cases hc : start < (t.length : Int)
    · by_cases hbrk : (t.length : Int) ≤ min (start + mc) (t.length : Int)
      · simp [chunkLoopW, hc, hbrk]
      · have he : min (start + mc) (t.length : Int) = start + mc := by omega
        simp only [chunkLoopW, hc, if_true, hbrk, if_false]
        apply ih
        · omega
        · omega
        · omega
    · simp [chunkLoopW, hc]

/-- On in-range non-negative bounds a Python slice is a drop-then-take. -/
theorem pySlice_eq (t : List Char) (a b : Int) (ha : 0 ≤ a) (hab : a ≤ b)
    (hb : b ≤ (t.length : Int)) :
    pySlice t a b = (t.drop a.toNat).take (b.toNat - a.toNat) := by
  have h1 : pyClampIdx t.length a = a.toNat := by
    unfold pyClampIdx
    rw [if_neg (by omega)]
    omega
  have h2 : pyClampIdx t.length b = b.toNat := by
    unfold pyClampIdx
    rw [if_neg (by omega)]
    omega
  unfold pySlice
  rw [h1, h2]

/-- Length of an in-range Python slice. -/
theorem pySlice_length (t : List Char) (a b : Int) (ha : 0 ≤ a) (hab : a ≤ b)
    (hb : b ≤ (t.length : Int)) :
    (pySlice t a b).length = b.toNat - a.toNat := by
  rw [pySlice_eq t a b ha hab hb, List.length_take, List.length_drop]
  omega

/-- An in-range Python slice is an infix of the sliced list. -/
theorem pySlice_infix (t : List Char) (a b : Int) :
    pySlice t a b <:+: t := by
  unfold pySlice
  exact ((List.take_prefix _ _).isInfix).trans ((List.drop_suffix _ _).isInfix)

/-- Ceiling-division step identity used to count loop iterations. -/
theorem ceil_step_succ (A S : Nat) (hA : 1 ≤ A) (hS : 1 ≤ S) :
    (A + S - 1) / S = (A - S + S - 1) / S + 1 := by
  rcases le_or_lt S A with h | h
  · have e1 : A - S + S - 1 = A - 1 := by omega
    have e2 : A + S - 1 = (A - 1) + S := by omega
    rw [e1, e2, Nat.add_div_right _ hS]
  · have e1 : A - S = 0 := by omega
    have e2 : A + S - 1 = (A - 1) + S := by omega
    rw [e1, e2, Nat.add_div_right _ hS, Nat.zero_add,
      Nat.div_eq_of_lt (by omega), Nat.div_eq_of_lt (by omega)]

/-- Main invariant of the raw-window loop, under the forward-progress
precondition `0 ≤ overlap < max_chars` and a start inside the text: the
windows it returns begin with `text[start : start + max_chars]`, each
adjacent pair overlaps by exactly `overlap` characters, the number of
windows is the ceiling count of the remaining text, and every window is a
non-empty infix of the text. -/
theorem chunkLoopW_spec (t : List Char) (mc ov : Int) (hov : 0 ≤ ov) (hlt : ov < mc) :
    ∀ (fuel : Nat) (start : Int), 0 ≤ start → start < (t.length : Int) →
      ∀ ws, chunkLoopW t mc ov fuel start [] = some ws →
        ws.head? = some (pySlice t start (min (start + mc) (t.length : Int)))
        ∧ List.Chain' (fun a b => a.drop (a.length - ov.toNat) = b.take ov.toNat) ws
        ∧ ws.length
            = (t.length - start.toNat - mc.toNat + (mc.toNat - ov.toNat) - 1)
                / (mc.toNat - ov.toNat) + 1
        ∧ ∀ w ∈ ws, w ≠ [] ∧ w <:+: t := by
  intro fuel
  induction fuel with
  | zero => intro start h0 h1 ws hws; simp [chunkLoopW] at hws
  | succ f ih =>
    intro start h0 h1 ws hws
    simp only [chunkLoopW, if_pos h1, List.nil_append] at hws
    by_cases hbrk : (t.length : Int) ≤ min (start + mc) (t.length : Int)
    · rw [if_pos hbrk] at hws
      have hws' : ws = [pySlice t start (min (start + mc) (t.length : Int))] :=
        (Option.some_injective _ hws).symm
      subst hws'
      have hend : min (start + mc) (t.length : Int) = (t.length : Int) := by omega
      have hlen : (pySlice t start (min (start + mc) (t.length : Int))).length
          = (min (start + mc) (t.length : Int)).toNat - start.toNat :=
        pySlice_length t start _ h0 (by omega) (by omega)
      refine ⟨rfl, List.chain'_singleton _, ?_, ?_⟩
      · have hA : t.length - start.toNat - mc.toNat = 0 := by omega
        rw [hA, Nat.zero_add, Nat.div_eq_of_lt (by omega)]
        rfl
      · intro w hw
        rw [List.mem_singleton] at hw
        subst hw
        refine ⟨?_, pySlice_infix t _ _⟩
        intro hnil
        rw [hnil] at hlen
        simp at hlen
        omega
    · rw [if_neg hbrk] at hws
      have he : min (start + mc) (t.length : Int) = start + mc := by omega
      have hmc : start + mc < (t.length : Int) := by omega
      rw [chunkLoopW_acc] at hws
      rcases Option.map_eq_some'.mp hws with ⟨ws', hws', hcons⟩
      subst hcons
      simp only [List.singleton_append]
      rw [List.singleton_append] at hws
      have h0' : (0 : Int) ≤ min (start + mc) (t.length : Int) - ov := by omega
      have h1' : min (start + mc) (t.length : Int) - ov < (t.length : Int) := by omega
      obtain ⟨ihHead, ihChain, ihLen, ihMem⟩ := ih _ h0' h1' ws' hws'
      have hsliceEq : pySlice t start (min (start + mc) (t.length : Int))
          = (t.drop start.toNat).take (mc.toNat) := by
        rw [pySlice_eq t start _ h0 (by omega) (by omega)]
        congr 1
        omega
      have hsliceLen : (pySlice t start (min (start + mc) (t.length : Int))).length
          = mc.toNat := by
        rw [pySlice_length t start _ h0 (by omega) (by omega)]
        omega
      refine ⟨rfl, ?_, ?_, ?_⟩
      · rw [List.chain'_cons']
        refine ⟨?_, ihChain⟩
        intro y hy
        rw [ihHead, Option.mem_def, Option.some_inj] at hy
        subst hy
        rw [hsliceLen, hsliceEq, List.drop_take, List.drop_drop]
        have hyEq : pySlice t (min (start + mc) (t.length : Int) - ov)
            (min (min (start + mc) (t.length : Int) - ov + mc) (t.length : Int))
            = (t.drop ((mc.toNat - ov.toNat) + start.toNat)).take
                ((min (min (start + mc) (t.length : Int) - ov + mc) (t.length : Int)).toNat
                  - ((mc.toNat - ov.toNat) + start.toNat)) := by
          rw [pySlice_eq t _ _ h0' (by omega) (by omega)]
          have hAA : (min (start + mc) (t.length : Int) - ov).toNat
              = (mc.toNat - ov.toNat) + start.toNat := by omega
          rw [hAA]
        have hmin : min ov.toNat
            ((min (min (start + mc) (t.length : Int) - ov + mc) (t.length : Int)).toNat
              - ((mc.toNat - ov.toNat) + start.toNat)) = ov.toNat := by omega
        have hov2 : mc.toNat - (mc.toNat - ov.toNat) = ov.toNat := by omega
        rw [hyEq, List.take_take, hmin, hov2, Nat.add_comm start.toNat (mc.toNat - ov.toNat)]
      · rw [List.length_cons, ihLen]
        have hstep : 1 ≤ mc.toNat - ov.toNat := by omega
        have hA : 1 ≤ t.length - start.toNat - mc.toNat := by omega
        have hs' : t.length - (min (start + mc) (t.length : Int) - ov).toNat - mc.toNat
            = t.length - start.toNat - mc.toNat - (mc.toNat - ov.toNat) := by omega
        rw [hs', ceil_step_succ _ _ hA hstep]
      · intro w hw
        rcases List.mem_cons.mp hw with hw | hw
        · subst hw
          refine ⟨?_, pySlice_infix t _ _⟩
          intro hnil
          rw [hnil] at hsliceLen
          simp at hsliceLen
          omega
        · exact ihMem w hw

/-- Dropping while a predicate never holds keeps the list unchanged. -/
theorem dropWhile_eq_self_of {p : Char → Bool} {l : List Char}
    (h : ∀ c ∈ l, p c = false) : l.dropWhile p = l := by
  cases l with
  | nil => rfl
  | cons a l => simp [List.dropWhile, h a (by simp)]

/-- Stripping a list with no whitespace characters is the identity. -/
theorem pyStrip_eq_self_of {l : List Char}
    (h : ∀ c ∈ l, isPySpace c = false) : pyStrip l = l := by
  unfold pyStrip
  rw [dropWhile_eq_self_of h,
    dropWhile_eq_self_of (fun c hc => h c (List.mem_reverse.mp hc)),
    List.reverse_reverse]

/-- Strip-and-filter is the identity on non-empty whitespace-free windows. -/
theorem stripFilter_eq_self_of {ws : List (List Char)}
    (h : ∀ w ∈ ws, (∀ c ∈ w, isPySpace c = false) ∧ w ≠ []) :
    stripFilter ws = ws := by
  induction ws with
  | nil => rfl
  | cons w rest ih =>
    obtain ⟨hc, hne⟩ := h w (by simp)
    have hs : pyStrip w = w := pyStrip_eq_self_of hc
    have hrest : stripFilter rest = rest := ih (fun w' hw' => h w' (by simp [hw']))
    have hemp : w.isEmpty = false := by
      cases w with
      | nil => exact absurd rfl hne
      | cons a l => rfl
    simp only [stripFilter, List.map_cons, List.filter, hs, hemp] at *
    simp [stripFilter, hrest, hemp]

/-- C4: for every text longer than `max_chars` with `0 <= overlap <
max_chars`, adjacent pre-trim windows produced by `chunk_text` share
exactly `overlap` characters (the last `overlap` characters of window `i`
equal the first `overlap` characters of window `i+1`), the window count is
exactly `ceil((len(text) - overlap) / (max_chars - overlap))` (written with
natural ceiling division), and the returned chunks are precisely those
windows stripped and filtered; concretely, `chunk_text("A"*10000,
max_chars=4000, overlap=200)` yields exactly 3 chunks, the first of length
4000. -/
theorem chunk_text_overlap_and_count :
    (∀ (t : List Char) (mc ov : Int) (ws : List (List Char)),
        0 ≤ ov → ov < mc → mc.toNat < t.length →
        chunkWindows t mc ov = some ws →
        List.Chain' (fun a b => a.drop (a.length - ov.toNat) = b.take ov.toNat) ws
          ∧ ws.length
              = (t.length - ov.toNat + (mc.toNat - ov.toNat) - 1) / (mc.toNat - ov.toNat)
          ∧ chunk_text t mc ov = some (stripFilter ws))
    ∧ (chunk_text (List.replicate 10000 'A') 4000 200).map
        (fun cs => (cs.length, (cs.headD []).length)) = some (3, 4000) := by
  have main : ∀ (t : List Char) (mc ov : Int) (ws : List (List Char)),
      0 ≤ ov → ov < mc → mc.toNat < t.length →
      chunkWindows t mc ov = some ws →
      List.Chain' (fun a b => a.drop (a.length - ov.toNat) = b.take ov.toNat) ws
        ∧ ws.length
            = (t.length - ov.toNat + (mc.toNat - ov.toNat) - 1) / (mc.toNat - ov.toNat)
        ∧ chunk_text t mc ov = some (stripFilter ws)
        ∧ ws.head? = some (pySlice t 0 (min mc (t.length : Int)))
        ∧ ∀ w ∈ ws, w ≠ [] ∧ w <:+: t := by
    intro t mc ov ws hov hlt hlen hws
    have hne : t.isEmpty = false := by
      cases t with
      | nil => simp at hlen
      | cons a l => rfl
    rw [chunkWindows, hne] at hws
    simp only [Bool.false_eq_true, if_false] at hws
    obtain ⟨ihHead, ihChain, ihLen, ihMem⟩ :=
      chunkLoopW_spec t mc ov hov hlt (t.length + 1) 0 le_rfl (by omega) ws hws
    refine ⟨ihChain, ?_, ?_, ?_, ihMem⟩
    · rw [ihLen]
      have h1 : t.length - (0 : Int).toNat - mc.toNat = t.length - mc.toNat := by omega
      have h2 : t.length - ov.toNat
          = (t.length - mc.toNat) + (mc.toNat - ov.toNat) := by omega
      have h3 : (t.length - mc.toNat) + (mc.toNat - ov.toNat) + (mc.toNat - ov.toNat) - 1
          = ((t.length - mc.toNat) + (mc.toNat - ov.toNat) - 1) + (mc.toNat - ov.toNat) := by
        omega
      rw [h1, h2, h3, Nat.add_div_right _ (by omega)]
    · rw [chunk_text, hne]
      simp only [Bool.false_eq_true, if_false]
      rw [chunkLoop_eq_windows, hws]
      rfl
    · simpa using ihHead
  refine ⟨fun t mc ov ws hov hlt hlen hws => ⟨(main t mc ov ws hov hlt hlen hws).1,
    (main t mc ov ws hov hlt hlen hws).2.1, (main t mc ov ws hov hlt hlen hws).2.2.1⟩, ?_⟩
  have hlenT : (List.replicate 10000 'A').length = 10000 := List.length_replicate 10000 'A'
  have hneT : (List.replicate 10000 'A').isEmpty = false := rfl
  have hsome : (chunkWindows (List.replicate 10000 'A') 4000 200).isSome := by
    rw [chunkWindows, hneT]
    simp only [Bool.false_eq_true, if_false]
    apply chunkLoopW_isSome _ _ _ (by omega) (by omega)
    · omega
    · rw [hlenT]; omega
    · rw [hlenT]; norm_num
  obtain ⟨ws, hws⟩ := Option.isSome_iff_exists.mp hsome
  obtain ⟨hChain, hLen, hChunk, hHead, hMem⟩ :=
    main (List.replicate 10000 'A') 4000 200 ws (by omega) (by omega)
      (by rw [hlenT]; norm_num) hws
  have hAllA : ∀ w ∈ ws, (∀ c ∈ w, isPySpace c = false) ∧ w ≠ [] := by
    intro w hw
    obtain ⟨hne', hinf⟩ := hMem w hw
    refine ⟨fun c hc => ?_, hne'⟩
    have hcT : c ∈ List.replicate 10000 'A' := hinf.sublist.subset hc
    rw [List.eq_of_mem_replicate hcT]
    rfl
  have hsf : stripFilter ws = ws := stripFilter_eq_self_of hAllA
  rw [hChunk, hsf, Option.map_some']
  have hLen3 : ws.length = 3 := by
    rw [hLen, hlenT]
    decide
  have hHeadLen : (ws.headD []).length = 4000 := by
    cases ws with
    | nil => simp at hLen3
    | cons w rest =>
      simp only [List.head?_cons, Option.some_inj] at hHead
      have hwlen : w.length = 4000 := by
        rw [hHead]
        rw [pySlice_length _ _ _ le_rfl (by rw [hlenT]; omega) (by rw [hlenT]; omega)]
        rw [hlenT]
        omega
      simpa using hwlen
  rw [hLen3, hHeadLen]

/-- C5: for every text, `max_chars`, and overlap with `0 <= overlap <
max_chars`, `chunk_text` terminates (the fuel `length + 1` is never
exhausted), and each non-final iteration of the sliding-window loop
advances the window start by exactly `max_chars - overlap`, which is
strictly positive — the forward-progress precondition. -/
theorem chunk_text_forward_progress :
    ∀ (t : List Char) (mc ov : Int), 0 ≤ ov → ov < mc →
      (chunk_text t mc ov).isSome = true
      ∧ ∀ (fuel : Nat) (start : Int) (acc : List (List Char)),
          0 ≤ start → start + mc < (t.length : Int) →
          chunkLoop t mc ov (fuel + 1) start acc
              = chunkLoop t mc ov fuel (start + (mc - ov))
                  (if (pyStrip (pySlice t start (start + mc))).isEmpty then acc
                   else acc ++ [pyStrip (pySlice t start (start + mc))])
            ∧ start < start + (mc - ov) := by
  intro t mc ov hov hlt
  constructor
  · rw [chunk_text]
    by_cases hne : t.isEmpty
    · rw [if_pos hne]; rfl
    · rw [if_neg hne]
      rw [chunkLoop_eq_windows, Option.isSome_map']
      exact chunkLoopW_isSome t mc ov hov hlt (t.length + 1) 0 [] le_rfl
        (by positivity) (by omega)
  · intro fuel start acc h0 hmc
    have hstart : start < (t.length : Int) := by omega
    have he : min (start + mc) (t.length : Int) = start + mc := by omega
    have hnbrk : ¬ ((t.length : Int) ≤ start + mc) := by omega
    have hadv : start + mc - ov = start + (mc - ov) := by ring
    refine ⟨?_, by omega⟩
    rw [chunkLoop_succ, if_pos hstart]
    simp only [he, if_neg hnbrk, hadv]

/-- Witness for `chunk_text_overlap_and_count` at the text `abcdefgh` with
`max_chars = 4`, `overlap = 1`: windows `abcd`, `defg`, `gh`. -/
theorem chunk_text_overlap_and_count_witness :
    List.Chain'
        (fun a b => a.drop (a.length - (1 : Int).toNat) = b.take (1 : Int).toNat)
        [['a', 'b', 'c', 'd'], ['d', 'e', 'f', 'g'], ['g', 'h']]
      ∧ ([['a', 'b', 'c', 'd'], ['d', 'e', 'f', 'g'], ['g', 'h']] : List (List Char)).length
          = ("abcdefgh".data.length - (1 : Int).toNat + ((4 : Int).toNat - (1 : Int).toNat) - 1)
              / ((4 : Int).toNat - (1 : Int).toNat)
      ∧ chunk_text "abcdefgh".data 4 1
          = some (stripFilter [['a', 'b', 'c', 'd'], ['d', 'e', 'f', 'g'], ['g', 'h']]) :=
  chunk_text_overlap_and_count.1 "abcdefgh".data 4 1
    [['a', 'b', 'c', 'd'], ['d', 'e', 'f', 'g'], ['g', 'h']]
    (by decide) (by decide) (by decide) (by decide)

/-- Witness for `chunk_text_forward_progress` at the text `abc` with
`max_chars = 2`, `overlap = 1`: the run terminates and the first loop
iteration advances the start from 0 to 1. -/
theorem chunk_text_forward_progress_witness :
    (chunk_text "abc".data 2 1).isSome = true
    ∧ (chunkLoop "abc".data 2 1 (5 + 1) 0 []
          = chunkLoop "abc".data 2 1 5 (0 + (2 - 1))
              (if (pyStrip (pySlice "abc".data 0 (0 + 2))).isEmpty then ([] : List (List Char))
               else [] ++ [pyStrip (pySlice "abc".data 0 (0 + 2))])
        ∧ (0 : Int) < 0 + (2 - 1)) :=
  ⟨(chunk_text_forward_progress "abc".data 2 1 (by decide) (by decide)).1,
   (chunk_text_forward_progress "abc".data 2 1 (by decide) (by decide)).2 5 0 []
     (by decide) (by decide)⟩

/-- C1: contrary to the claim, `RAGPipeline(config)` never succeeds: line 78
of `src/rag/pipeline/rag_pipeline.py` executes `ContextEngine(self)` with a
single positional argument although `ContextEngine.__init__(self, searcher,
generator, content_safety=None)` requires two, so for every configuration
construction raises `TypeError` and no `ContextEngine` is ever built or
wired from the searcher, generator and content-safety provider. -/
theorem rag_pipeline_init_raises_type_error :
    ∀ config : RAGConfig,
      ragPipelineInit config
        = .error (.typeError ("ContextEngine.__init__() missing 1 required positional argument: "
            ++ sQuote ++ "generator" ++ sQuote)) := by
  intro config
  rfl

/-- C2: `answer_question` returns the fixed no-hit string and never calls
the generator when the searcher yields zero results; on a non-empty hit
list it calls the generator exactly once with the question, the context
built of one `[Source: {source_id}]\n{chunk}` block per hit joined in hit
order by blank lines, and the caller's system prompt, returning the
generator's output. -/
theorem answer_question_zero_and_nonzero_hits :
    ∀ (gen : String → String → Option String → String) (q : String)
      (sp : Option String) (rs : List SearchResult),
      (rs.isEmpty = true →
        answer_question gen rs q sp
          = { result := "I couldn't find any relevant information to answer your question.",
              generatorCalls := [] })
      ∧ (rs.isEmpty = false →
          answer_question gen rs q sp
            = { result := gen q (String.intercalate "\n\n"
                  (rs.map (fun r => "[Source: " ++ r.source_id ++ "]\n" ++ r.chunk))) sp,
                generatorCalls := [(q, String.intercalate "\n\n"
                  (rs.map (fun r => "[Source: " ++ r.source_id ++ "]\n" ++ r.chunk)), sp)] }) := by
  intro gen q sp rs
  constructor
  · intro h
    rw [answer_question, if_pos h]
  · intro h
    rw [answer_question, if_neg (by rw [h]; exact Bool.false_ne_true)]

/-- Witness for `answer_question_zero_and_nonzero_hits`: a zero-hit run
yields the fixed string with no generator call, and a two-hit run calls the
stub generator with the two source blocks joined by a blank line. -/
theorem answer_question_zero_and_nonzero_hits_witness :
    (answer_question (fun q c _ => q ++ "|" ++ c) [] "q0" none
        = { result := "I couldn't find any relevant information to answer your question.",
            generatorCalls := [] })
    ∧ (answer_question (fun q c _ => q ++ "|" ++ c)
          [{ source_id := "s1", chunk := "c1" }, { source_id := "s2", chunk := "c2" }] "q0" none
        = { result := ("q0" ++ "|" ++ "[Source: s1]\nc1\n\n[Source: s2]\nc2" : String),
            generatorCalls := [("q0", "[Source: s1]\nc1\n\n[Source: s2]\nc2", none)] }) := by
  constructor
  · exact (answer_question_zero_and_nonzero_hits (fun q c _ => q ++ "|" ++ c) "q0" none []).1 rfl
  · have h := (answer_question_zero_and_nonzero_hits (fun q c _ => q ++ "|" ++ c) "q0" none
      [{ source_id := "s1", chunk := "c1" }, { source_id := "s2", chunk := "c2" }]).2 rfl
    rw [h]
    rfl

/-- C3: when `index_exists()` reports false, `SemanticSearcher.search`
raises `SearchError` with the source's exact message and makes no call to
the embedding provider — it does not return an empty result list. -/
theorem search_missing_index_raises :
    ∀ (embed : List String → Except String (List (List Int)))
      (vector_search : List Int → Int → Option String → Except String (List SearchResult))
      (query : String) (namespace_ : Option String) (top_k : Int)
      (filter_expr : Option String),
      semanticSearch false embed vector_search query namespace_ top_k filter_expr
        = { result := .error (.searchError "Search index does not exist. Returning empty results."),
            embedCalls := 0 } := by
  intro embed vector_search query namespace_ top_k filter_expr
  rfl

/-- C10: whenever the upload step's `upsert_documents` call returns without
raising, `ingest_documents` reports success with `documents_uploaded =
len(docs)`, independently of the store-confirmed count, which is discarded
— two runs whose upserts confirm different counts yield identical results. -/
theorem ingest_upload_result_counts_submitted :
    ∀ (docs : List SearchDocument) (items_len chunks_len : Nat)
      (confirmed other_confirmed : Nat) (duration : Int),
      ingestUploadPhase docs items_len chunks_len (.ok confirmed) duration
          = ingestUploadPhase docs items_len chunks_len (.ok other_confirmed) duration
      ∧ (ingestUploadPhase docs items_len chunks_len (.ok confirmed) duration).success = true
      ∧ (ingestUploadPhase docs items_len chunks_len (.ok confirmed) duration).documents_uploaded
          = docs.length := by
  intro docs items_len chunks_len confirmed other_confirmed duration
  exact ⟨rfl, rfl, rfl⟩

/-- C9: contrary to the claim, an ingested item of source type `path` gets
no `filename`/`filepath`/`fileext` metadata (nor `mime_type`/`item_name`):
`document_ingester.py` never imports `pathlib.Path`, so the enrichment
block raises `NameError` and the bare `except` swallows it.  At the
concrete failing item the per-document metadata stays empty and every
produced search document carries no metadata payload, while a non-path
item of the same shape does get its `mime_type` and `item_name`. -/
theorem path_metadata_enrichment_skipped :
    enrichPerDocMeta []
        { name := "report.pdf", mime_type := "application/pdf",
          source_type := "path", source_value := "docs/report.pdf" } = []
    ∧ (make_search_documents "KnowledgeStore" "misc-report-0" ["chunk one"] [[1, 2]]
          (enrichPerDocMeta []
            { name := "report.pdf", mime_type := "application/pdf",
              source_type := "path", source_value := "docs/report.pdf" })
          "2024-01-01T00:00:00Z").map (fun d => d.metadata_json) = [none]
    ∧ enrichPerDocMeta []
        { name := "report.pdf", mime_type := "application/pdf",
          source_type := "dict", source_value := "" }
        = [("mime_type", .str "application/pdf"), ("item_name", .str "report.pdf")] := by
  exact ⟨rfl, rfl, rfl⟩

/-- Every member of a string list occurs verbatim inside its quoted
comma-join. -/
theorem mem_pyQuoteJoin_occurs :
    ∀ (ss : List String) (k : String), k ∈ ss → k.data <:+: (pyQuoteJoin ss).data := by
  intro ss
  induction ss with
  | nil => intro k hk; simp at hk
  | cons s rest ih =>
    intro k hk
    cases rest with
    | nil =>
      rw [List.mem_singleton] at hk
      subst hk
      refine ⟨sQuote.data, sQuote.data, ?_⟩
      simp [pyQuoteJoin, String.data_append, List.append_assoc]
    | cons r rs =>
      rcases List.mem_cons.mp hk with hk | hk
      · subst hk
        refine ⟨sQuote.data, sQuote.data ++ ", ".data ++ (pyQuoteJoin (r :: rs)).data, ?_⟩
        simp [pyQuoteJoin, String.data_append, List.append_assoc]
      · refine (ih k hk).trans ⟨(sQuote ++ s ++ sQuote ++ ", ").data, [], ?_⟩
        simp [pyQuoteJoin, String.data_append, List.append_assoc]

/-- Every member of a string list occurs verbatim inside its Python list
`repr`. -/
theorem mem_pyReprList_occurs (ss : List String) (k : String) (h : k ∈ ss) :
    k.data <:+: (pyReprList ss).data :=
  (mem_pyQuoteJoin_occurs ss k h).trans
    ⟨"[".data, "]".data, by simp [pyReprList, String.data_append, List.append_assoc]⟩

/-- The unresolved-dependency message contains the missing key verbatim. -/
theorem unresolvedMsg_contains_value (value key : String) (available : List String) :
    value.data <:+: (unresolvedMsg value key available).data := by
  refine ⟨("Unresolved dependency: " ++ sQuote).data,
    (sQuote ++ " in input parameter " ++ sQuote ++ key ++ sQuote
      ++ "\nAvailable outputs: " ++ pyReprList available).data, ?_⟩
  simp [unresolvedMsg, String.data_append, List.append_assoc]

/-- The unresolved-dependency message contains each listed key verbatim. -/
theorem unresolvedMsg_contains_available (value key : String) (available : List String)
    (k : String) (hk : k ∈ available) :
    k.data <:+: (unresolvedMsg value key available).data := by
  refine (mem_pyReprList_occurs available k hk).trans
    ⟨("Unresolved dependency: " ++ sQuote ++ value ++ sQuote ++ " in input parameter "
      ++ sQuote ++ key ++ sQuote ++ "\nAvailable outputs: ").data, [], ?_⟩
  simp [unresolvedMsg, String.data_append, List.append_assoc]

/-- A successfully resolved head entry prepends to the resolution of the
remaining entries. -/
theorem resolve_dependencies_cons_ok (state : List (String × PyVal))
    (kv kv' : String × PyVal) (input : List (String × PyVal))
    (h : resolveEntry state kv = .ok kv') :
    resolve_dependencies (kv :: input) state
      = (resolve_dependencies input state).map (fun rest => kv' :: rest) := by
  simp only [resolve_dependencies, h]
  cases resolve_dependencies input state <;> rfl

/-- A failing head entry aborts resolution with its error. -/
theorem resolve_dependencies_cons_error (state : List (String × PyVal))
    (kv : String × PyVal) (input : List (String × PyVal)) (e : PyExc)
    (h : resolveEntry state kv = .error e) :
    resolve_dependencies (kv :: input) state = .error e := by
  simp only [resolve_dependencies, h]

/-- C6: dependency resolution of the Context Engine, entry by entry.  A
`STEP_`-prefixed string naming an absent state key raises a `ValueError`
whose message contains the missing key and every currently available
`STEP_` key; a present key's dict value is unwrapped through the first
content key in the priority order `output`, `facts`, `summary`,
`blueprint`; a dict with none of those keys, or a non-dict value, is
substituted whole. -/
theorem resolve_dependencies_spec :
    ∀ (state input : List (String × PyVal)) (key s : String)
      (es : List (String × PyVal)) (v : PyVal),
      (pyStartsWith s "STEP_" = true → pyGet state s = none →
        resolve_dependencies ((key, .str s) :: input) state
            = .error (.valueError (unresolvedMsg s key (stepKeys state)))
          ∧ listContains s.data (unresolvedMsg s key (stepKeys state)).data = true
          ∧ (stepKeys state).all
              (fun k => listContains k.data (unresolvedMsg s key (stepKeys state)).data) = true)
      ∧ (pyStartsWith s "STEP_" = true → pyGet state s = some (.dict es) →
          firstContentKey es = some v →
          resolve_dependencies ((key, .str s) :: input) state
            = (resolve_dependencies input state).map (fun rest => (key, v) :: rest))
      ∧ (pyStartsWith s "STEP_" = true → pyGet state s = some (.dict es) →
          firstContentKey es = none →
          resolve_dependencies ((key, .str s) :: input) state
            = (resolve_dependencies input state).map (fun rest => (key, .dict es) :: rest))
      ∧ (pyStartsWith s "STEP_" = true → pyGet state s = some v → v.isDict = false →
          resolve_dependencies ((key, .str s) :: input) state
            = (resolve_dependencies input state).map (fun rest => (key, v) :: rest)) := by
  intro state input key s es v
  refine ⟨fun hpre habs => ?_, fun hpre hget hfirst => ?_, fun hpre hget hfirst => ?_,
    fun hpre hget hnd => ?_⟩
  · refine ⟨?_, ?_, ?_⟩
    · exact resolve_dependencies_cons_error state _ input _
        (by simp [resolveEntry, hpre, habs])
    · exact decide_eq_true (unresolvedMsg_contains_value s key (stepKeys state))
    · rw [List.all_eq_true]
      intro k hk
      exact decide_eq_true (unresolvedMsg_contains_available s key (stepKeys state) k hk)
  · exact resolve_dependencies_cons_ok state _ _ input (by simp [resolveEntry, hpre, hget, hfirst])
  · exact resolve_dependencies_cons_ok state _ _ input (by simp [resolveEntry, hpre, hget, hfirst])
  · cases v with
    | str s' =>
      exact resolve_dependencies_cons_ok state _ _ input (by simp [resolveEntry, hpre, hget])
    | dict es' => simp [PyVal.isDict] at hnd
    | other tag =>
      exact resolve_dependencies_cons_ok state _ _ input (by simp [resolveEntry, hpre, hget])

/-- Witness for `resolve_dependencies_spec`, mirroring the spec's concrete
cases: a `facts` unwrap, a pass-through dict, and a missing-key error whose
message contains the missing and the available keys. -/
theorem resolve_dependencies_spec_witness :
    (resolve_dependencies [("topic", .str "STEP_1_OUTPUT")]
          [("STEP_1_OUTPUT", .dict [("facts", .str "X")])]
        = (resolve_dependencies [] [("STEP_1_OUTPUT", .dict [("facts", .str "X")])]).map
            (fun rest => ("topic", PyVal.str "X") :: rest))
    ∧ (resolve_dependencies [("topic", .str "STEP_1_OUTPUT")]
          [("STEP_1_OUTPUT", .dict [("other", .str "Y")])]
        = (resolve_dependencies [] [("STEP_1_OUTPUT", .dict [("other", .str "Y")])]).map
            (fun rest => ("topic", PyVal.dict [("other", .str "Y")]) :: rest))
    ∧ (resolve_dependencies [("topic", .str "STEP_2_OUTPUT")]
          [("STEP_1_OUTPUT", .dict [("facts", .str "X")])]
        = .error (.valueError (unresolvedMsg "STEP_2_OUTPUT" "topic"
            (stepKeys [("STEP_1_OUTPUT", .dict [("facts", .str "X")])])))
      ∧ listContains "STEP_2_OUTPUT".data
          (unresolvedMsg "STEP_2_OUTPUT" "topic"
            (stepKeys [("STEP_1_OUTPUT", .dict [("facts", .str "X")])])).data = true
      ∧ (stepKeys [("STEP_1_OUTPUT", .dict [("facts", .str "X")])]).all
          (fun k => listContains k.data
            (unresolvedMsg "STEP_2_OUTPUT" "topic"
              (stepKeys [("STEP_1_OUTPUT", .dict [("facts", .str "X")])])).data) = true) :=
  ⟨(resolve_dependencies_spec [("STEP_1_OUTPUT", .dict [("facts", .str "X")])] []
      "topic" "STEP_1_OUTPUT" [("facts", .str "X")] (.str "X")).2.1
      (by decide) rfl rfl,
   (resolve_dependencies_spec [("STEP_1_OUTPUT", .dict [("other", .str "Y")])] []
      "topic" "STEP_1_OUTPUT" [("other", .str "Y")] (.str "Y")).2.2.1
      (by decide) rfl rfl,
   (resolve_dependencies_spec [("STEP_1_OUTPUT", .dict [("facts", .str "X")])] []
      "topic" "STEP_2_OUTPUT" [] (.str "X")).1 (by decide) rfl⟩

/-- C7 counterexample: with a searcher returning zero hits (hence zero
usable chunks) the Researcher returns the plain message dict of the source
— not an error-status `AgentResponse` with message `No valid chunks found`
— and makes no generator call. -/
theorem researcher_zero_chunks_counterexample :
    researcher_execute (fun _ _ _ => "GEN") [] [("topic", PyVal.str "Apollo 11")]
        = .ok { out := .dict [("sender", .str "Researcher"),
                  ("content",
                    .str "Could not generate a reliable answer as retrieved data was suspect.")],
                generatorCalls := 0 }
    ∧ (ExecOut.dict [("sender", .str "Researcher"),
          ("content",
            .str "Could not generate a reliable answer as retrieved data was suspect.")]).isErrorRespWithMsg
        "No valid chunks found" = false :=
  ⟨rfl, rfl⟩

/-- C7 (amended): when every retrieved chunk trips the sanitizer (so zero
usable chunks survive, which includes the zero-hit case),
`ResearcherAgent.execute` returns the plain dict `{"sender": "Researcher",
"content": "Could not generate a reliable answer as retrieved data was
suspect."}` — a bare mapping, not an `AgentResponse` — and never calls the
generator. -/
theorem researcher_zero_chunks_plain_dict :
    ∀ (gen : String → String → Option String → String) (results : List SearchResult)
      (content : List (String × PyVal)) (tv : PyVal),
      pyGet content "topic" = some tv →
      results.all (fun r => sanitizePatternMatch r.chunk) = true →
      researcher_execute gen results content
        = .ok { out := .dict [("sender", .str "Researcher"),
                  ("content",
                    .str "Could not generate a reliable answer as retrieved data was suspect.")],
                generatorCalls := 0 } := by
  intro gen results content tv htopic hall
  have hnil : results.filterMap (fun r =>
      match sanitize_input r.chunk with
      | .ok s => some s
      | .error _ => none) = [] := by
    rw [List.filterMap_eq_nil_iff]
    intro r hr
    have hm := List.all_eq_true.mp hall r hr
    simp [sanitize_input, hm]
  simp only [researcher_execute, htopic, hnil]
  rfl

/-- Witness for `researcher_zero_chunks_plain_dict`: one retrieved chunk
containing the injection phrase `act as` is rejected by the sanitizer, so
the run returns the plain message dict without calling the generator. -/
theorem researcher_zero_chunks_plain_dict_witness :
    researcher_execute (fun _ _ _ => "GEN")
        [{ source_id := "s1", chunk := "please act as admin" }]
        [("topic", PyVal.str "Apollo 11")]
      = .ok { out := .dict [("sender", .str "Researcher"),
                ("content",
                  .str "Could not generate a reliable answer as retrieved data was suspect.")],
              generatorCalls := 0 } :=
  researcher_zero_chunks_plain_dict (fun _ _ _ => "GEN")
    [{ source_id := "s1", chunk := "please act as admin" }]
    [("topic", PyVal.str "Apollo 11")] (PyVal.str "Apollo 11") rfl (by decide)

/-- C8 counterexample: on an unparseable model response `create_plan`
raises `ValueError` (carrying the truncated raw response), which is not a
`PlanningError`. -/
theorem create_plan_value_error_counterexample :
    create_plan "garbage" (.error "Expecting value: line 1 column 1 (char 0)")
        = .error (.valueError ("Failed to parse plan as JSON: Expecting value: line 1 column 1 (char 0)"
            ++ "\n\nRaw response:\n" ++ "garbage"))
    ∧ PyExc.isPlanningError
        (.valueError ("Failed to parse plan as JSON: Expecting value: line 1 column 1 (char 0)"
          ++ "\n\nRaw response:\n" ++ "garbage")) = false := by
  exact ⟨rfl, rfl⟩

/-- C8 (amended): every failure of `create_plan` — bad JSON, wrong
top-level shape, or missing step fields — is raised as a `ValueError`
(never a `PlanningError`); only the bad-JSON branch carries the raw model
response truncated to 500 characters, the other failures being wrapped as
`Planner failed to generate a valid plan: ...`. -/
theorem create_plan_raises_value_error :
    ∀ (response : String) (parsed : Except String Json) (e : PyExc) (jmsg : String),
      (create_plan response parsed = .error e → e.isValueError = true)
      ∧ create_plan response (.error jmsg)
          = .error (.valueError ("Failed to parse plan as JSON: " ++ jmsg
              ++ "\n\nRaw response:\n" ++ pyTake 500 response)) := by
  intro response parsed e jmsg
  constructor
  · intro h
    cases parsed with
    | error m =>
      simp only [create_plan, Except.error.injEq] at h
      rw [← h]
      rfl
    | ok jd =>
      cases hpd : planFromData jd with
      | ok steps => simp [create_plan, hpd] at h
      | error e0 =>
        simp only [create_plan, hpd, Except.error.injEq] at h
        rw [← h]
        rfl
  · rfl

/-- Witness for `create_plan_raises_value_error`: a concrete parse failure
yields the `ValueError` with the raw response embedded, and that error is a
`ValueError`. -/
theorem create_plan_raises_value_error_witness :
    (PyExc.valueError ("Failed to parse plan as JSON: " ++ "boom"
        ++ "\n\nRaw response:\n" ++ pyTake 500 "raw model text")).isValueError = true
    ∧ create_plan "raw model text" (.error "boom")
        = .error (.valueError ("Failed to parse plan as JSON: " ++ "boom"
            ++ "\n\nRaw response:\n" ++ pyTake 500 "raw model text")) :=
  ⟨(create_plan_raises_value_error "raw model text" (.error "boom")
      (.valueError ("Failed to parse plan as JSON: " ++ "boom"
        ++ "\n\nRaw response:\n" ++ pyTake 500 "raw model text")) "boom").1 rfl,
   (create_plan_raises_value_error "raw model text" (.error "boom")
      (.valueError "") "boom").2⟩
